import Mathlib

/-!
Verification of the gs_usb host-side driver (Python package `gs_usb`)
against its natural-language specification.

The definitions below are a shallow embedding of the source files
`gs_usb/constants.py`, `gs_usb/gs_usb_frame.py`, `gs_usb/gs_usb_structures.py`
and `gs_usb/gs_usb.py`.  Machine integers are modelled as `Nat` with explicit
bounds or `% 2^w` where the source masks; byte strings are `List Nat`;
fallible decoding (Python `struct.unpack`, which raises on a length mismatch)
returns `Option`; the USB transport is an explicit parameter (a successful
bulk read is `some bytes`, a USB error or timeout is `none`), and control
transfers issued by a method are returned as an explicit list.
-/

namespace GsUsbSpec

/-! Constants from `gs_usb/constants.py`. -/

def GS_CAN_MODE_NORMAL : Nat := 0
def GS_CAN_MODE_LISTEN_ONLY : Nat := 1 <<< 0
def GS_CAN_MODE_LOOP_BACK : Nat := 1 <<< 1
def GS_CAN_MODE_TRIPLE_SAMPLE : Nat := 1 <<< 2
def GS_CAN_MODE_ONE_SHOT : Nat := 1 <<< 3
def GS_CAN_MODE_HW_TIMESTAMP : Nat := 1 <<< 4
def GS_CAN_MODE_FD : Nat := 1 <<< 8

def GS_CAN_FEATURE_FD : Nat := 1 <<< 8
def GS_CAN_FEATURE_GET_STATE : Nat := 1 <<< 13

def CAN_EFF_FLAG : Nat := 0x80000000
def CAN_RTR_FLAG : Nat := 0x40000000
def CAN_ERR_FLAG : Nat := 0x20000000

def CAN_SFF_MASK : Nat := 0x000007FF
def CAN_EFF_MASK : Nat := 0x1FFFFFFF

def CANFD_MAX_DLEN : Nat := 64

def GS_CAN_FLAG_FD : Nat := 1 <<< 1
def GS_CAN_FLAG_BRS : Nat := 1 <<< 2

def CANFD_DLC_TO_LEN : List Nat := [0, 1, 2, 3, 4, 5, 6, 7, 8, 12, 16, 20, 24, 32, 48, 64]

/-! Constants from `gs_usb/gs_usb_frame.py` and `gs_usb/gs_usb.py`. -/

def GS_USB_ECHO_ID : Nat := 0

def GS_USB_FRAME_SIZE : Nat := 20
def GS_USB_FRAME_SIZE_HW_TIMESTAMP : Nat := 24
def GS_USB_FRAME_SIZE_FD : Nat := 76
def GS_USB_FRAME_SIZE_FD_HW_TIMESTAMP : Nat := 80

def GS_USB_BREQ_BITTIMING : Nat := 1
def GS_USB_BREQ_MODE : Nat := 2
def GS_USB_BREQ_DATA_BITTIMING : Nat := 10
def GS_USB_BREQ_GET_STATE : Nat := 14

/-! Little-endian codec helpers, modelling Python `struct` with format
characters `I` (u32, little-endian) and `B` (u8). -/

/-- Little-endian encoding of a u32 value as four bytes (format `<I`). -/
def u32le (n : Nat) : List Nat :=
  [n % 256, n / 256 % 256, n / 65536 % 256, n / 16777216 % 256]

/-- Little-endian value of four bytes. -/
def leWord (b0 b1 b2 b3 : Nat) : Nat :=
  b0 + 256 * b1 + 65536 * b2 + 16777216 * b3

/-- Little-endian u32 read at byte offset `i` of a buffer (0 when out of range). -/
def wordAt (data : List Nat) (i : Nat) : Nat :=
  match data.drop i with
  | b0 :: b1 :: b2 :: b3 :: _ => leWord b0 b1 b2 b3
  | _ => 0

/-! DLC and length conversion, from `gs_usb/gs_usb_frame.py` lines 27-45. -/

/-- Convert DLC to data length (`dlc_to_len`). -/
def dlc_to_len (dlc : Nat) (fd : Bool) : Nat :=
  if fd then
    if h : dlc < CANFD_DLC_TO_LEN.length then CANFD_DLC_TO_LEN.get ⟨dlc, h⟩
    else CANFD_MAX_DLEN
  else
    min dlc 8

/-- Loop body of `len_to_dlc` for FD: scan `enumerate(CANFD_DLC_TO_LEN)` and
return the first index whose length is at least the requested length, else 15. -/
def len_to_dlc_fd_scan (length : Nat) : List Nat → Nat → Nat
  | [], _ => 15
  | dlen :: rest, dlc => if length ≤ dlen then dlc else len_to_dlc_fd_scan length rest (dlc + 1)

/-- Convert data length to DLC (`len_to_dlc`). -/
def len_to_dlc (length : Nat) (fd : Bool) : Nat :=
  if fd then len_to_dlc_fd_scan length CANFD_DLC_TO_LEN 0
  else min length 8

/-! The frame object, from `gs_usb/gs_usb_frame.py`. -/

/-- Embedding of class `GsUsbFrame` (its instance attributes). -/
structure GsUsbFrame where
  echo_id : Nat
  can_id : Nat
  can_dlc : Nat
  channel : Nat
  flags : Nat
  reserved : Nat
  data : List Nat
  timestamp_us : Nat
deriving DecidableEq, Repr

/-- Embedding of the `GsUsbFrame.__init__` constructor. -/
def GsUsbFrame.init (can_id : Nat) (data : List Nat) (fd brs : Bool) : GsUsbFrame :=
  let flags0 := if fd then GS_CAN_FLAG_FD else 0
  let flags1 := if brs && fd then flags0 ||| GS_CAN_FLAG_BRS else flags0
  let max_len := if fd then CANFD_MAX_DLEN else 8
  let data_len := min data.length max_len
  { echo_id := GS_USB_ECHO_ID
    can_id := can_id
    channel := 0
    flags := flags1
    reserved := 0
    timestamp_us := 0
    data := data.take data_len ++ List.replicate (max_len - data_len) 0
    can_dlc := len_to_dlc data.length fd }

/-- Fresh frame `GsUsbFrame()`, as allocated by `GsUsbFrame.from_bytes`. -/
def GsUsbFrame.default : GsUsbFrame := GsUsbFrame.init 0 [] false false

/-- Property `GsUsbFrame.arbitration_id`. -/
def GsUsbFrame.arbitration_id (f : GsUsbFrame) : Nat := f.can_id &&& CAN_EFF_MASK

/-- Property `GsUsbFrame.is_extended_id`. -/
def GsUsbFrame.is_extended_id (f : GsUsbFrame) : Bool := f.can_id &&& CAN_EFF_FLAG ≠ 0

/-- Property `GsUsbFrame.is_remote_frame`. -/
def GsUsbFrame.is_remote_frame (f : GsUsbFrame) : Bool := f.can_id &&& CAN_RTR_FLAG ≠ 0

/-- Property `GsUsbFrame.is_error_frame`. -/
def GsUsbFrame.is_error_frame (f : GsUsbFrame) : Bool := f.can_id &&& CAN_ERR_FLAG ≠ 0

/-- Property `GsUsbFrame.is_fd`. -/
def GsUsbFrame.is_fd (f : GsUsbFrame) : Bool := f.flags &&& GS_CAN_FLAG_FD ≠ 0

/-- Property `GsUsbFrame.is_brs`. -/
def GsUsbFrame.is_brs (f : GsUsbFrame) : Bool := f.flags &&& GS_CAN_FLAG_BRS ≠ 0

/-- Method `GsUsbFrame.__sizeof__`: wire size for a layout combination. -/
def GsUsbFrame.sizeOfLayout (hw_timestamp fd_mode : Bool) : Nat :=
  if fd_mode then
    if hw_timestamp then GS_USB_FRAME_SIZE_FD_HW_TIMESTAMP else GS_USB_FRAME_SIZE_FD
  else
    if hw_timestamp then GS_USB_FRAME_SIZE_HW_TIMESTAMP else GS_USB_FRAME_SIZE

/-- Method `GsUsbFrame.pack`: serialize the frame for the layout selected by
`(hw_timestamp, fd_mode)`.  The 12-byte header is `echo_id:u32, can_id:u32,
can_dlc:u8, channel:u8, flags:u8, reserved:u8`; then `data[:64]` (FD) or
`data[:8]` (classic); then, with a hardware timestamp,
`timestamp_us & 0xFFFFFFFF` as a u32. -/
def GsUsbFrame.pack (f : GsUsbFrame) (hw_timestamp fd_mode : Bool) : List Nat :=
  let header := u32le f.echo_id ++ u32le f.can_id ++
    [f.can_dlc, f.channel, f.flags, f.reserved]
  if fd_mode then
    if hw_timestamp then
      header ++ f.data.take 64 ++ u32le (f.timestamp_us % 4294967296)
    else
      header ++ f.data.take 64
  else
    if hw_timestamp then
      header ++ f.data.take 8 ++ u32le (f.timestamp_us % 4294967296)
    else
      header ++ f.data.take 8

/-- Static method `GsUsbFrame.unpack_into`: populate a frame from received
bytes.  Python `struct.unpack` raises when the buffer length differs from the
format size, modelled as `none`.  Classic layouts pad the 8 payload bytes with
56 zeros; FD layouts copy all 64 payload bytes. -/
def GsUsbFrame.unpack_into (frame : GsUsbFrame) (data : List Nat)
    (hw_timestamp fd_mode : Bool) : Option GsUsbFrame :=
  if data.length = GsUsbFrame.sizeOfLayout hw_timestamp fd_mode then
    let base := { frame with
      echo_id := wordAt data 0
      can_id := wordAt data 4
      can_dlc := data.getD 8 0
      channel := data.getD 9 0
      flags := data.getD 10 0
      reserved := data.getD 11 0 }
    if fd_mode then
      if hw_timestamp then
        some { base with data := (data.drop 12).take 64, timestamp_us := wordAt data 76 }
      else
        some { base with data := (data.drop 12).take 64 }
    else
      let classicData := (data.drop 12).take 8 ++ List.replicate 56 0
      if hw_timestamp then
        some { base with data := classicData, timestamp_us := wordAt data 20 }
      else
        some { base with data := classicData }
  else none

/-- Class method `GsUsbFrame.from_bytes`: unpack into a fresh frame. -/
def GsUsbFrame.from_bytes (data : List Nat) (hw_timestamp fd_mode : Bool) :
    Option GsUsbFrame :=
  GsUsbFrame.unpack_into GsUsbFrame.default data hw_timestamp fd_mode

/-! Structures from `gs_usb/gs_usb_structures.py`. -/

/-- Embedding of class `DeviceBitTiming`. -/
structure DeviceBitTiming where
  prop_seg : Nat
  phase_seg1 : Nat
  phase_seg2 : Nat
  sjw : Nat
  brp : Nat
deriving DecidableEq, Repr

/-- Method `DeviceBitTiming.pack`: five little-endian u32 words (`<5I`). -/
def DeviceBitTiming.pack (t : DeviceBitTiming) : List Nat :=
  u32le t.prop_seg ++ u32le t.phase_seg1 ++ u32le t.phase_seg2 ++ u32le t.sjw ++ u32le t.brp

/-- Embedding of class `DeviceState`. -/
structure DeviceState where
  state : Nat
  rxerr : Nat
  txerr : Nat
deriving DecidableEq, Repr

/-- Static method `DeviceState.unpack`: three little-endian u32 words (`<3I`),
`none` on a length mismatch (Python `struct.unpack` raises). -/
def DeviceState.unpack (data : List Nat) : Option DeviceState :=
  if data.length = 12 then
    some { state := wordAt data 0, rxerr := wordAt data 4, txerr := wordAt data 8 }
  else none

/-! The channel controller, from `gs_usb/gs_usb.py`.  Device state that the
Python object reads (the cached `device_capability`, the session flags) is
passed explicitly; control transfers a method issues are returned as a list of
`(bRequest, wIndex, payload)` triples. -/

/-- A control transfer issued by the driver, in pyusb `ctrl_transfer`
positional order: `(bmRequestType, bRequest, wValue, wIndex, payload)`;
device-to-host transfers carry an empty payload (their final pyusb argument
is the read length, not data). -/
abbrev ControlTransfer : Type := Nat × Nat × Nat × Nat × List Nat

/-- Driver-supported mode mask applied in `GsUsb.start` (lines 90-96):
listen-only, loop-back, one-shot, hardware timestamp, FD. -/
def driverSupportedMask : Nat :=
  GS_CAN_MODE_LISTEN_ONLY ||| GS_CAN_MODE_LOOP_BACK ||| GS_CAN_MODE_ONE_SHOT |||
    GS_CAN_MODE_HW_TIMESTAMP ||| GS_CAN_MODE_FD

/-- Effective mode flags computed in `GsUsb.start`: the requested flags are
first masked with the device feature word, then with the driver mask.  The
result is recorded as `self.device_flags` and sent in the MODE transfer. -/
def GsUsb.start_flags (requested feature : Nat) : Nat :=
  (requested &&& feature) &&& driverSupportedMask

/-- FD-active session bit recorded by `GsUsb.start`. -/
def GsUsb.start_fd_mode (requested feature : Nat) : Bool :=
  GsUsb.start_flags requested feature &&& GS_CAN_MODE_FD = GS_CAN_MODE_FD

/-- Session hardware-timestamp bit, as computed in `GsUsb.send` / `GsUsb.read`:
`(self.device_flags & GS_CAN_MODE_HW_TIMESTAMP) == GS_CAN_MODE_HW_TIMESTAMP`. -/
def GsUsb.hw_timestamps (device_flags : Nat) : Bool :=
  device_flags &&& GS_CAN_MODE_HW_TIMESTAMP = GS_CAN_MODE_HW_TIMESTAMP

/-- Transfer issued by `GsUsb.set_timing`:
`ctrl_transfer(0x41, BITTIMING, 0, 0, packed DeviceBitTiming)`. -/
def GsUsb.set_timing (prop_seg phase_seg1 phase_seg2 sjw brp : Nat) : ControlTransfer :=
  (0x41, GS_USB_BREQ_BITTIMING, 0, 0,
    DeviceBitTiming.pack ⟨prop_seg, phase_seg1, phase_seg2, sjw, brp⟩)

/-- Transfer issued by `GsUsb.set_data_timing`:
`ctrl_transfer(0x41, DATA_BITTIMING, 0, 0, packed DeviceBitTiming)`. -/
def GsUsb.set_data_timing (prop_seg phase_seg1 phase_seg2 sjw brp : Nat) : ControlTransfer :=
  (0x41, GS_USB_BREQ_DATA_BITTIMING, 0, 0,
    DeviceBitTiming.pack ⟨prop_seg, phase_seg1, phase_seg2, sjw, brp⟩)

/-- Method `GsUsb.set_bitrate` (nominal phase): returns the boolean result and
the control transfers issued.  `fclk_can` is the cached device clock and
`sample_point` the caller-supplied sample point (a float in Python, compared
only for equality with the literal 87.5, so modelled exactly as a rational). -/
def GsUsb.set_bitrate (fclk_can : Nat) (sample_point : ℚ) (bitrate : Nat) :
    Bool × List ControlTransfer :=
  if fclk_can = 48000000 ∧ sample_point = 87.5 then
    if bitrate = 10000 then (true, [GsUsb.set_timing 1 12 2 1 300])
    else if bitrate = 20000 then (true, [GsUsb.set_timing 1 12 2 1 150])
    else if bitrate = 50000 then (true, [GsUsb.set_timing 1 12 2 1 60])
    else if bitrate = 83333 then (true, [GsUsb.set_timing 1 12 2 1 36])
    else if bitrate = 100000 then (true, [GsUsb.set_timing 1 12 2 1 30])
    else if bitrate = 125000 then (true, [GsUsb.set_timing 1 12 2 1 24])
    else if bitrate = 250000 then (true, [GsUsb.set_timing 1 12 2 1 12])
    else if bitrate = 500000 then (true, [GsUsb.set_timing 1 12 2 1 6])
    else if bitrate = 800000 then (true, [GsUsb.set_timing 1 11 2 1 4])
    else if bitrate = 1000000 then (true, [GsUsb.set_timing 1 12 2 1 3])
    else (false, [])
  else if fclk_can = 80000000 ∧ sample_point = 87.5 then
    if bitrate = 10000 then (true, [GsUsb.set_timing 1 12 2 1 500])
    else if bitrate = 20000 then (true, [GsUsb.set_timing 1 12 2 1 250])
    else if bitrate = 50000 then (true, [GsUsb.set_timing 1 12 2 1 100])
    else if bitrate = 83333 then (true, [GsUsb.set_timing 1 12 2 1 60])
    else if bitrate = 100000 then (true, [GsUsb.set_timing 1 12 2 1 50])
    else if bitrate = 125000 then (true, [GsUsb.set_timing 1 12 2 1 40])
    else if bitrate = 250000 then (true, [GsUsb.set_timing 1 12 2 1 20])
    else if bitrate = 500000 then (true, [GsUsb.set_timing 1 12 2 1 10])
    else if bitrate = 800000 then (true, [GsUsb.set_timing 1 7 1 1 10])
    else if bitrate = 1000000 then (true, [GsUsb.set_timing 1 12 2 1 5])
    else (false, [])
  else if fclk_can = 40000000 ∧ sample_point = 87.5 then
    if bitrate = 10000 then (true, [GsUsb.set_timing 1 12 2 1 250])
    else if bitrate = 20000 then (true, [GsUsb.set_timing 1 12 2 1 125])
    else if bitrate = 50000 then (true, [GsUsb.set_timing 1 12 2 1 50])
    else if bitrate = 83333 then (true, [GsUsb.set_timing 1 12 2 1 30])
    else if bitrate = 100000 then (true, [GsUsb.set_timing 1 12 2 1 25])
    else if bitrate = 125000 then (true, [GsUsb.set_timing 1 12 2 1 20])
    else if bitrate = 250000 then (true, [GsUsb.set_timing 1 12 2 1 10])
    else if bitrate = 500000 then (true, [GsUsb.set_timing 1 12 2 1 5])
    else if bitrate = 800000 then (true, [GsUsb.set_timing 1 7 1 1 5])
    else if bitrate = 1000000 then (true, [GsUsb.set_timing 1 5 1 1 5])
    else (false, [])
  else (false, [])

/-- Method `GsUsb.set_data_bitrate` (CAN FD data phase): fails fast when the
device feature word lacks the FD bit; otherwise branches on the cached clock
and the bitrate only (the `sample_point` parameter is unused in the body). -/
def GsUsb.set_data_bitrate (feature : Nat) (fclk_can : Nat) (bitrate : Nat) :
    Bool × List ControlTransfer :=
  if feature &&& GS_CAN_FEATURE_FD = 0 then (false, [])
  else if fclk_can = 80000000 then
    if bitrate = 2000000 then (true, [GsUsb.set_data_timing 1 4 2 1 5])
    else if bitrate = 4000000 then (true, [GsUsb.set_data_timing 1 1 1 1 5])
    else if bitrate = 5000000 then (true, [GsUsb.set_data_timing 1 4 2 1 2])
    else if bitrate = 8000000 then (true, [GsUsb.set_data_timing 1 2 1 1 2])
    else (false, [])
  else if fclk_can = 40000000 then
    if bitrate = 2000000 then (true, [GsUsb.set_data_timing 1 6 2 1 2])
    else if bitrate = 4000000 then (true, [GsUsb.set_data_timing 1 2 1 1 2])
    else if bitrate = 5000000 then (true, [GsUsb.set_data_timing 1 4 2 1 1])
    else if bitrate = 8000000 then (true, [GsUsb.set_data_timing 1 2 1 1 1])
    else if bitrate = 10000000 then (true, [GsUsb.set_data_timing 1 1 1 1 1])
    else (false, [])
  else (false, [])

/-- The nominal bit-timing table of `GsUsb.set_bitrate` has an entry exactly
for the three supported clocks at sample point 87.5 and the ten listed
bitrates (the same ten for each clock). -/
def nominalTableSupported (fclk_can : Nat) (sample_point : ℚ) (bitrate : Nat) : Prop :=
  (fclk_can = 48000000 ∨ fclk_can = 80000000 ∨ fclk_can = 40000000) ∧ sample_point = 87.5 ∧
    bitrate ∈ [10000, 20000, 50000, 83333, 100000, 125000, 250000, 500000, 800000, 1000000]

/-- The data-phase bit-timing table of `GsUsb.set_data_bitrate` has an entry
exactly for the two supported clocks and their listed bitrates; it is keyed by
clock and bitrate only. -/
def dataTableSupported (fclk_can bitrate : Nat) : Prop :=
  (fclk_can = 80000000 ∧ bitrate ∈ [2000000, 4000000, 5000000, 8000000]) ∨
  (fclk_can = 40000000 ∧ bitrate ∈ [2000000, 4000000, 5000000, 8000000, 10000000])

/-- FD-layout bit recovered by `GsUsb.read` from the received buffer: the FD
flag of the flags byte at offset 10 when the buffer has at least 11 bytes,
otherwise false. -/
def GsUsb.frame_is_fd (data : List Nat) : Bool :=
  if 11 ≤ data.length then data.getD 10 0 &&& GS_CAN_FLAG_FD ≠ 0 else false

/-- Method `GsUsb.read`: a bulk-read outcome of `none` models a USB error or
timeout (caught, returning `(false, frame)` with the frame untouched); on
`some data` the frame is decoded with the session hardware-timestamp bit and
the FD bit recovered from the buffer.  The session `fd_mode` only sizes the
bulk-read request (`max_size`), which is abstracted into the `bulk_read`
outcome, so it plays no role in decoding.  A `struct` length mismatch, which
the Python method does not catch, is modelled as overall `none`. -/
def GsUsb.read (device_flags : Nat) (fd_mode : Bool) (frame : GsUsbFrame)
    (bulk_read : Option (List Nat)) : Option (Bool × GsUsbFrame) :=
  let _max_size := GsUsbFrame.sizeOfLayout (GsUsb.hw_timestamps device_flags) fd_mode
  match bulk_read with
  | none => some (false, frame)
  | some data =>
    match GsUsbFrame.unpack_into frame data (GsUsb.hw_timestamps device_flags)
        (GsUsb.frame_is_fd data) with
    | none => none
    | some f => some (true, f)

/-- Property `GsUsb.supports_get_state`. -/
def GsUsb.supports_get_state (feature : Nat) : Bool :=
  feature &&& GS_CAN_FEATURE_GET_STATE ≠ 0

/-- Method `GsUsb.get_state`: without the GET_STATE feature it raises
(no transfer, `none` result); with it, it issues a fresh GET_STATE control
transfer `ctrl_transfer(0xC1, GET_STATE, channel, 0, 12)` — the channel rides
in the pyusb `wValue` slot and `wIndex` is 0 — and decodes the 12-byte
`response` that the transfer returned. -/
def GsUsb.get_state (feature : Nat) (channel : Nat) (response : List Nat) :
    List ControlTransfer × Option DeviceState :=
  if GsUsb.supports_get_state feature then
    ([(0xC1, GS_USB_BREQ_GET_STATE, channel, 0, [])], DeviceState.unpack response)
  else ([], none)

/-! Helper lemmas about the little-endian codec. -/

theorem wordAt_u32le (n : Nat) (l : List Nat) (h : n < 4294967296) :
    wordAt (u32le n ++ l) 0 = n := by
  simp only [u32le, List.cons_append, List.nil_append, wordAt, List.drop_zero, leWord]
  omega

theorem wordAt_u32le4 (a n : Nat) (l : List Nat) (h : n < 4294967296) :
    wordAt (u32le a ++ (u32le n ++ l)) 4 = n := by
  have hpeel : wordAt (u32le a ++ (u32le n ++ l)) 4 = wordAt (u32le n ++ l) 0 := rfl
  rw [hpeel]
  exact wordAt_u32le n l h

theorem wordAt_append_length (l1 l2 : List Nat) (n : Nat) (h : l1.length = n) :
    wordAt (l1 ++ l2) n = wordAt l2 0 := by
  simp only [wordAt, List.drop_left' h, List.drop_zero]

theorem wordAt_header12 (a b x1 x2 x3 x4 : Nat) (l : List Nat) (n : Nat) :
    wordAt (u32le a ++ (u32le b ++ ([x1, x2, x3, x4] ++ l))) (n + 12) = wordAt l n := rfl

theorem drop12_header (a b x1 x2 x3 x4 : Nat) (l : List Nat) :
    (u32le a ++ (u32le b ++ ([x1, x2, x3, x4] ++ l))).drop 12 = l := rfl

theorem wordAt_u32le_self (n : Nat) (h : n < 4294967296) : wordAt (u32le n) 0 = n := by
  have h2 := wordAt_u32le n [] h
  rwa [List.append_nil] at h2

/-- C1 (counterexample). The claim quantifies over every frame and asserts that
all fields, `data` and `timestamp_us` included, round-trip in all four layout
combinations.  It fails already for the frame built by the constructor with no
data in classic mode: its `data` attribute is an 8-entry list, while
`unpack_into` always rebuilds a 64-entry list, so the decoded frame differs
from the original. -/
theorem C1_roundtrip_counterexample :
    GsUsbFrame.from_bytes ((GsUsbFrame.init 0 [] false false).pack false false) false false
      ≠ some (GsUsbFrame.init 0 [] false false) := by decide

/-- C1 (amended). Packing a frame with `pack(hw_timestamp, fd_mode)` and
decoding the produced bytes with `unpack_into` into a fresh frame reproduces
the original frame exactly — all fields `echo_id`, `can_id`, `can_dlc`,
`channel`, `flags`, `reserved`, `data`, `timestamp_us` — in each of the four
layout combinations, for DLC values 0-8 (classic) and 0-15 (FD) and 64-byte
payloads, provided the frame is well-formed for the layout used: u32/u8 fields
in range, `data` a 64-entry byte list whose entries past index 8 are zero when
the classic layout is used, and `timestamp_us` a u32 value when the layout
carries a timestamp and zero when it does not (the non-timestamp layouts do
not transport `timestamp_us` at all). -/
theorem C1_pack_unpack_roundtrip (f : GsUsbFrame) (hw fd : Bool)
    (h1 : f.echo_id < 4294967296) (h2 : f.can_id < 4294967296)
    (h3 : f.can_dlc ≤ if fd then 15 else 8)
    (h4 : f.channel < 256) (h5 : f.flags < 256) (h6 : f.reserved < 256)
    (h7 : f.data.length = 64)
    (hbytes : ∀ b ∈ f.data, b < 256)
    (h8 : fd = false → f.data.drop 8 = List.replicate 56 0)
    (h9 : hw = true → f.timestamp_us < 4294967296)
    (h10 : hw = false → f.timestamp_us = 0) :
    GsUsbFrame.from_bytes (f.pack hw fd) hw fd = some f := by
  obtain ⟨e, c, dlc, ch, fl, re, d, ts⟩ := f
  simp only at h1 h2 h3 h4 h5 h6 h7 h8 h9 h10
  have htake64 : d.take 64 = d := List.take_of_length_le (by omega)
  have htake8len : (d.take 8).length = 8 := by
    rw [List.length_take]; omega
  cases hw <;> cases fd
  · -- classic layout, no timestamp
    have hts : ts = 0 := h10 rfl
    subst hts
    simp only [GsUsbFrame.from_bytes, GsUsbFrame.pack, Bool.false_eq_true, ite_false,
      List.append_assoc]
    rw [GsUsbFrame.unpack_into]
    rw [if_pos (by simp [GsUsbFrame.sizeOfLayout, GS_USB_FRAME_SIZE, u32le,
      List.length_append, h7])]
    simp only [Bool.false_eq_true, ite_false, Option.some.injEq, GsUsbFrame.mk.injEq]
    refine ⟨wordAt_u32le e _ h1, wordAt_u32le4 e c _ h2, rfl, rfl, rfl, rfl, ?_, rfl⟩
    rw [drop12_header, List.take_take, min_self, ← h8 rfl, List.take_append_drop]
  · -- FD layout, no timestamp
    have hts : ts = 0 := h10 rfl
    subst hts
    simp only [GsUsbFrame.from_bytes, GsUsbFrame.pack, Bool.false_eq_true, ite_false, ite_true,
      htake64, List.append_assoc]
    rw [GsUsbFrame.unpack_into]
    rw [if_pos (by simp [GsUsbFrame.sizeOfLayout, GS_USB_FRAME_SIZE_FD, u32le,
      List.length_append, h7])]
    simp only [Bool.false_eq_true, ite_false, ite_true, Option.some.injEq, GsUsbFrame.mk.injEq]
    refine ⟨wordAt_u32le e _ h1, wordAt_u32le4 e c _ h2, rfl, rfl, rfl, rfl, ?_, rfl⟩
    rw [drop12_header, htake64]
  · -- classic layout with hardware timestamp
    have htsr : ts % 4294967296 = ts := Nat.mod_eq_of_lt (h9 rfl)
    simp only [GsUsbFrame.from_bytes, GsUsbFrame.pack, Bool.false_eq_true, ite_false, ite_true,
      htsr, List.append_assoc]
    rw [GsUsbFrame.unpack_into]
    rw [if_pos (by simp [GsUsbFrame.sizeOfLayout, GS_USB_FRAME_SIZE_HW_TIMESTAMP, u32le,
      List.length_append, h7])]
    simp only [Bool.false_eq_true, ite_false, ite_true, Option.some.injEq, GsUsbFrame.mk.injEq]
    refine ⟨wordAt_u32le e _ h1, wordAt_u32le4 e c _ h2, rfl, rfl, rfl, rfl, ?_, ?_⟩
    · rw [drop12_header, List.take_left' htake8len, ← h8 rfl, List.take_append_drop]
    · have hskip := wordAt_header12 e c dlc ch fl re (d.take 8 ++ u32le ts) 8
      rw [hskip, wordAt_append_length _ _ 8 htake8len]
      exact wordAt_u32le_self ts (h9 rfl)
  · -- FD layout with hardware timestamp
    have htsr : ts % 4294967296 = ts := Nat.mod_eq_of_lt (h9 rfl)
    simp only [GsUsbFrame.from_bytes, GsUsbFrame.pack, ite_true, htsr, htake64,
      List.append_assoc]
    rw [GsUsbFrame.unpack_into]
    rw [if_pos (by simp [GsUsbFrame.sizeOfLayout, GS_USB_FRAME_SIZE_FD_HW_TIMESTAMP, u32le,
      List.length_append, h7])]
    simp only [ite_true, Option.some.injEq, GsUsbFrame.mk.injEq]
    refine ⟨wordAt_u32le e _ h1, wordAt_u32le4 e c _ h2, rfl, rfl, rfl, rfl, ?_, ?_⟩
    · rw [drop12_header, List.take_left' h7]
    · have hskip := wordAt_header12 e c dlc ch fl re (d ++ u32le ts) 64
      rw [hskip, wordAt_append_length _ _ 64 h7]
      exact wordAt_u32le_self ts (h9 rfl)

/-- C1 (witness). The round-trip theorem applied to a concrete FD frame with
hardware timestamp: a 64-byte payload of value 7, DLC 15, nonzero header
fields and timestamp. -/
theorem C1_roundtrip_witness :
    GsUsbFrame.from_bytes
      ((GsUsbFrame.mk 1 2 15 3 4 5 (List.replicate 64 7) 6).pack true true) true true
      = some (GsUsbFrame.mk 1 2 15 3 4 5 (List.replicate 64 7) 6) :=
  C1_pack_unpack_roundtrip (GsUsbFrame.mk 1 2 15 3 4 5 (List.replicate 64 7) 6) true true
    (by decide) (by decide) (by decide) (by decide) (by decide) (by decide)
    (by decide) (by decide) (by simp) (fun _ => by decide) (by simp)

/-- Scanning a list all of whose entries are below the requested length
returns the default DLC 15, whatever the running index. -/
theorem len_to_dlc_fd_scan_eq_15 (length : Nat) :
    ∀ (l : List Nat) (k : Nat), (∀ x ∈ l, x < length) → len_to_dlc_fd_scan length l k = 15 := by
  intro l
  induction l with
  | nil => intro k _; rfl
  | cons a t ih =>
    intro k h
    have ha : a < length := h a (List.mem_cons_self a t)
    simp only [len_to_dlc_fd_scan]
    rw [if_neg (by omega)]
    exact ih (k + 1) (fun x hx => h x (List.mem_cons_of_mem a hx))

/-- C2. For every length 0-64, `len_to_dlc(length, fd=true)` is the smallest
index into `CANFD_DLC_TO_LEN` whose table entry is at least `length`; for
every length above 64 it is 15; `len_to_dlc` is a left inverse of
`dlc_to_len` on DLCs 0-15; and length 9 maps to DLC 9, length 64 to DLC 15,
length 65 to DLC 15. -/
theorem C2_len_to_dlc_ceiling :
    (∀ length < 65,
       len_to_dlc length true ≤ 15 ∧
       length ≤ CANFD_DLC_TO_LEN.getD (len_to_dlc length true) 0 ∧
       ∀ j < len_to_dlc length true, CANFD_DLC_TO_LEN.getD j 0 < length) ∧
    (∀ length, 64 < length → len_to_dlc length true = 15) ∧
    (∀ d < 16, len_to_dlc (dlc_to_len d true) true = d) ∧
    len_to_dlc 9 true = 9 ∧ len_to_dlc 64 true = 15 ∧ len_to_dlc 65 true = 15 := by
  refine ⟨by decide, ?_, by decide, by decide, by decide, by decide⟩
  intro length h
  have hall : ∀ x ∈ CANFD_DLC_TO_LEN, x < length := by
    intro x hx
    simp [CANFD_DLC_TO_LEN] at hx
    rcases hx with h1 | h1 | h1 | h1 | h1 | h1 | h1 | h1 | h1 | h1 | h1 | h1 | h1 | h1 | h1 | h1 <;>
      omega
  simp only [len_to_dlc, if_pos rfl]
  exact len_to_dlc_fd_scan_eq_15 length CANFD_DLC_TO_LEN 0 hall

/-- C2 (witness). The ceiling theorem evaluated at lengths 12 and 100 and at
DLC 13. -/
theorem C2_len_to_dlc_witness :
    len_to_dlc 12 true ≤ 15 ∧ len_to_dlc 100 true = 15 ∧
    len_to_dlc (dlc_to_len 13 true) true = 13 :=
  ⟨(C2_len_to_dlc_ceiling.1 12 (by decide)).1,
   C2_len_to_dlc_ceiling.2.1 100 (by decide),
   C2_len_to_dlc_ceiling.2.2.1 13 (by decide)⟩

/-- A bitwise-and with a power of two is nonzero exactly when the
corresponding bit is set. -/
theorem and_two_pow_ne_zero_eq_testBit (x n : Nat) :
    (decide (x &&& 2 ^ n ≠ 0)) = x.testBit n := by
  rw [Nat.and_two_pow]
  cases h : x.testBit n <;> simp

/-- C3 (counterexample). The claim says the arbitration value is masked to 11
bits when the extended bit is clear; the code applies the 29-bit mask
unconditionally.  For `can_id = 0x1FFF` the extended bit is clear, yet
`arbitration_id` is `0x1FFF`, not the 11-bit value `0x7FF`. -/
theorem C3_sff_mask_counterexample :
    (GsUsbFrame.init 0x1FFF [] false false).is_extended_id = false ∧
    (GsUsbFrame.init 0x1FFF [] false false).arbitration_id = 0x1FFF ∧
    ((GsUsbFrame.init 0x1FFF [] false false).can_id &&& CAN_SFF_MASK) = 0x7FF ∧
    (0x1FFF : Nat) ≠ 0x7FF := by decide

/-- C3 (amended). For every frame, the decoded flags are: extended-frame iff
bit 31 of `can_id` is set, remote-transmission-request iff bit 30, error-frame
iff bit 29; the arbitration value is always the low 29 bits of `can_id`, with
no further masking when the extended bit is clear.  Identifier `0x80000123`
decodes to arbitration id `0x123` with the extended flag set, and
`0x40000123` to arbitration id `0x123` with the remote flag set. -/
theorem C3_can_id_flag_decoding (f : GsUsbFrame) :
    f.is_extended_id = f.can_id.testBit 31 ∧
    f.is_remote_frame = f.can_id.testBit 30 ∧
    f.is_error_frame = f.can_id.testBit 29 ∧
    f.arbitration_id = f.can_id % 2 ^ 29 ∧
    (GsUsbFrame.init 0x80000123 [] false false).is_extended_id = true ∧
    (GsUsbFrame.init 0x80000123 [] false false).arbitration_id = 0x123 ∧
    (GsUsbFrame.init 0x40000123 [] false false).is_remote_frame = true ∧
    (GsUsbFrame.init 0x40000123 [] false false).arbitration_id = 0x123 := by
  refine ⟨?_, ?_, ?_, ?_, by decide, by decide, by decide, by decide⟩
  · have h31 := and_two_pow_ne_zero_eq_testBit f.can_id 31
    norm_num at h31
    simp only [GsUsbFrame.is_extended_id, CAN_EFF_FLAG, ne_eq, decide_not, h31, Bool.not_not]
  · have h30 := and_two_pow_ne_zero_eq_testBit f.can_id 30
    norm_num at h30
    simp only [GsUsbFrame.is_remote_frame, CAN_RTR_FLAG, ne_eq, decide_not, h30, Bool.not_not]
  · have h29 := and_two_pow_ne_zero_eq_testBit f.can_id 29
    norm_num at h29
    simp only [GsUsbFrame.is_error_frame, CAN_ERR_FLAG, ne_eq, decide_not, h29, Bool.not_not]
  · have hm := Nat.and_pow_two_sub_one_eq_mod f.can_id 29
    norm_num at hm ⊢
    exact hm

/-- C4. The effective mode flags recorded and sent by `start` equal
`requested AND deviceFeatures AND driverSupportedMask`, where the driver mask
is exactly listen-only, loop-back, one-shot, hardware-timestamp and FD; the
masking is commutative in order, and the result is a subset of the requested
flags and of the driver mask. -/
theorem C4_effective_start_flags (req feat : Nat) :
    GsUsb.start_flags req feat = req &&& feat &&& driverSupportedMask ∧
    req &&& feat &&& driverSupportedMask = req &&& driverSupportedMask &&& feat ∧
    GsUsb.start_flags req feat &&& req = GsUsb.start_flags req feat ∧
    GsUsb.start_flags req feat &&& driverSupportedMask = GsUsb.start_flags req feat ∧
    driverSupportedMask = GS_CAN_MODE_LISTEN_ONLY ||| GS_CAN_MODE_LOOP_BACK |||
      GS_CAN_MODE_ONE_SHOT ||| GS_CAN_MODE_HW_TIMESTAMP ||| GS_CAN_MODE_FD := by
  refine ⟨rfl, ?_, ?_, ?_, rfl⟩
  · apply Nat.eq_of_testBit_eq
    intro i
    simp only [Nat.testBit_and]
    cases req.testBit i <;> cases feat.testBit i <;> cases driverSupportedMask.testBit i <;> rfl
  · apply Nat.eq_of_testBit_eq
    intro i
    simp only [GsUsb.start_flags, Nat.testBit_and]
    cases req.testBit i <;> cases feat.testBit i <;> cases driverSupportedMask.testBit i <;> rfl
  · apply Nat.eq_of_testBit_eq
    intro i
    simp only [GsUsb.start_flags, Nat.testBit_and]
    cases req.testBit i <;> cases feat.testBit i <;> cases driverSupportedMask.testBit i <;> rfl

set_option maxHeartbeats 1000000 in
/-- C5. For every (clock, bitrate, sample point) combination without an entry
in the hard-coded timing tables, `set_bitrate` and `set_data_bitrate` return
`False` and issue no BITTIMING / DATA_BITTIMING control transfer: no
best-effort approximation is ever produced.  The nominal table is keyed by
clock, sample point 87.5 and bitrate; the data-phase table by clock and
bitrate. -/
theorem C5_unsupported_returns_false (fclk : Nat) (sp : ℚ) (bitrate feature : Nat) :
    (¬ nominalTableSupported fclk sp bitrate →
       GsUsb.set_bitrate fclk sp bitrate = (false, [])) ∧
    (¬ dataTableSupported fclk bitrate →
       GsUsb.set_data_bitrate feature fclk bitrate = (false, [])) := by
  constructor
  · intro h
    by_cases h48 : fclk = 48000000 ∧ sp = 87.5
    · rw [GsUsb.set_bitrate, if_pos h48]
      split_ifs <;> first
        | rfl
        | exact absurd ⟨Or.inl h48.1, h48.2, by subst_vars; decide⟩ h
    · by_cases h80 : fclk = 80000000 ∧ sp = 87.5
      · rw [GsUsb.set_bitrate, if_neg h48, if_pos h80]
        split_ifs <;> first
          | rfl
          | exact absurd ⟨Or.inr (Or.inl h80.1), h80.2, by subst_vars; decide⟩ h
      · by_cases h40 : fclk = 40000000 ∧ sp = 87.5
        · rw [GsUsb.set_bitrate, if_neg h48, if_neg h80, if_pos h40]
          split_ifs <;> first
            | rfl
            | exact absurd ⟨Or.inr (Or.inr h40.1), h40.2, by subst_vars; decide⟩ h
        · rw [GsUsb.set_bitrate, if_neg h48, if_neg h80, if_neg h40]
  · intro h
    rw [GsUsb.set_data_bitrate]
    by_cases hfd : feature &&& GS_CAN_FEATURE_FD = 0
    · rw [if_pos hfd]
    · rw [if_neg hfd]
      by_cases h80 : fclk = 80000000
      · rw [if_pos h80]
        split_ifs <;> first
          | rfl
          | exact absurd (Or.inl ⟨h80, by subst_vars; decide⟩) h
      · rw [if_neg h80]
        by_cases h40 : fclk = 40000000
        · rw [if_pos h40]
          split_ifs <;> first
            | rfl
            | exact absurd (Or.inr ⟨h40, by subst_vars; decide⟩) h
        · rw [if_neg h40]

/-- C5 (witness). An unlisted nominal bitrate on a 48 MHz device and an
unlisted data-phase bitrate on an 80 MHz FD-capable device both return
`False` with no transfer. -/
theorem C5_unsupported_witness :
    GsUsb.set_bitrate 48000000 87.5 300000 = (false, []) ∧
    GsUsb.set_data_bitrate 511 80000000 3000000 = (false, []) :=
  ⟨(C5_unsupported_returns_false 48000000 87.5 300000 511).1
     (by simp [nominalTableSupported]),
   (C5_unsupported_returns_false 48000000 87.5 3000000 511).2
     (by simp [dataTableSupported])⟩

/-- C6. For a 40 MHz clock at sample point 87.5 and bitrate 500000 the
nominal solver issues exactly one BITTIMING transfer carrying the timing
tuple (prop_seg 1, phase_seg1 12, phase_seg2 2, sjw 1, brp 5), whose encoding
is the 20-byte little-endian structure of the five u32 words 1, 12, 2, 1, 5. -/
theorem C6_40mhz_500k_scenario :
    GsUsb.set_bitrate 40000000 87.5 500000 = (true, [GsUsb.set_timing 1 12 2 1 5]) ∧
    GsUsb.set_timing 1 12 2 1 5 = (0x41, GS_USB_BREQ_BITTIMING, 0, 0,
      [1, 0, 0, 0, 12, 0, 0, 0, 2, 0, 0, 0, 1, 0, 0, 0, 5, 0, 0, 0]) ∧
    (DeviceBitTiming.pack ⟨1, 12, 2, 1, 5⟩).length = 20 := by
  refine ⟨?_, by decide, by decide⟩
  norm_num [GsUsb.set_bitrate]

set_option maxHeartbeats 1000000 in
/-- C7. For every read call, whatever the session flags: a failed or
timed-out bulk read yields a no-frame result rather than a failure; a
successful read is decoded with the session hardware-timestamp bit and the FD
bit taken from the buffer's flags byte at offset 10 (false for buffers
shorter than 11 bytes); in particular a classic-layout echo frame received
while the session is FD-active — in a session without hardware timestamps (20
bytes) as well as in the default hardware-timestamp session (24 bytes) —
decodes all header fields correctly and reports `is_fd = false`. -/
theorem C7_read_layout_recovery (device_flags : Nat) (fd_mode : Bool) (f : GsUsbFrame)
    (b0 b1 b2 b3 b4 b5 b6 b7 b8 b9 b10 b11 b12 b13 b14 b15 b16 b17 b18 b19
     t0 t1 t2 t3 : Nat)
    (hfd : b10 &&& GS_CAN_FLAG_FD = 0) :
    (GsUsb.read device_flags fd_mode f none = some (false, f)) ∧
    (∀ data, data.length < 11 → GsUsb.frame_is_fd data = false) ∧
    (∀ data g, GsUsbFrame.unpack_into f data (GsUsb.hw_timestamps device_flags)
        (GsUsb.frame_is_fd data) = some g →
       GsUsb.read device_flags fd_mode f (some data) = some (true, g)) ∧
    (GsUsb.hw_timestamps device_flags = false →
      GsUsb.read device_flags fd_mode f
        (some [b0, b1, b2, b3, b4, b5, b6, b7, b8, b9, b10, b11,
               b12, b13, b14, b15, b16, b17, b18, b19]) =
        some (true, GsUsbFrame.mk (leWord b0 b1 b2 b3) (leWord b4 b5 b6 b7) b8 b9 b10 b11
          ([b12, b13, b14, b15, b16, b17, b18, b19] ++ List.replicate 56 0)
          f.timestamp_us)) ∧
    (GsUsb.hw_timestamps device_flags = true →
      GsUsb.read device_flags fd_mode f
        (some [b0, b1, b2, b3, b4, b5, b6, b7, b8, b9, b10, b11,
               b12, b13, b14, b15, b16, b17, b18, b19, t0, t1, t2, t3]) =
        some (true, GsUsbFrame.mk (leWord b0 b1 b2 b3) (leWord b4 b5 b6 b7) b8 b9 b10 b11
          ([b12, b13, b14, b15, b16, b17, b18, b19] ++ List.replicate 56 0)
          (leWord t0 t1 t2 t3))) ∧
    (GsUsbFrame.mk (leWord b0 b1 b2 b3) (leWord b4 b5 b6 b7) b8 b9 b10 b11
        ([b12, b13, b14, b15, b16, b17, b18, b19] ++ List.replicate 56 0)
        f.timestamp_us).is_fd = false := by
  refine ⟨rfl, ?_, ?_, ?_, ?_, ?_⟩
  · intro data hlen
    rw [GsUsb.frame_is_fd, if_neg (by omega)]
  · intro data g h
    simp only [GsUsb.read, h]
  · intro hhw
    have hff : GsUsb.frame_is_fd
        [b0, b1, b2, b3, b4, b5, b6, b7, b8, b9, b10, b11,
         b12, b13, b14, b15, b16, b17, b18, b19] = false := by
      simp [GsUsb.frame_is_fd]
      exact hfd
    have hunpack : GsUsbFrame.unpack_into f
        [b0, b1, b2, b3, b4, b5, b6, b7, b8, b9, b10, b11,
         b12, b13, b14, b15, b16, b17, b18, b19] false false
        = some (GsUsbFrame.mk (leWord b0 b1 b2 b3) (leWord b4 b5 b6 b7) b8 b9 b10 b11
            ([b12, b13, b14, b15, b16, b17, b18, b19] ++ List.replicate 56 0)
            f.timestamp_us) := rfl
    simp only [GsUsb.read, hhw, hff, hunpack]
  · intro hhw
    have hff : GsUsb.frame_is_fd
        [b0, b1, b2, b3, b4, b5, b6, b7, b8, b9, b10, b11,
         b12, b13, b14, b15, b16, b17, b18, b19, t0, t1, t2, t3] = false := by
      simp [GsUsb.frame_is_fd]
      exact hfd
    have hunpack : GsUsbFrame.unpack_into f
        [b0, b1, b2, b3, b4, b5, b6, b7, b8, b9, b10, b11,
         b12, b13, b14, b15, b16, b17, b18, b19, t0, t1, t2, t3] true false
        = some (GsUsbFrame.mk (leWord b0 b1 b2 b3) (leWord b4 b5 b6 b7) b8 b9 b10 b11
            ([b12, b13, b14, b15, b16, b17, b18, b19] ++ List.replicate 56 0)
            (leWord t0 t1 t2 t3)) := rfl
    simp only [GsUsb.read, hhw, hff, hunpack]
  · simp [GsUsbFrame.is_fd]
    exact hfd

/-- C7 (witness). Concrete classic echo buffers read during FD-active
sessions: a 20-byte buffer with hardware timestamps off (`device_flags = 0`)
and a 24-byte buffer in the default hardware-timestamp session
(`device_flags = 16`). -/
theorem C7_read_witness :
    (GsUsb.read 0 true GsUsbFrame.default
      (some [1, 0, 0, 0, 35, 1, 0, 0, 3, 0, 0, 0, 170, 187, 0, 0, 0, 0, 0, 0]) =
      some (true, GsUsbFrame.mk (leWord 1 0 0 0) (leWord 35 1 0 0) 3 0 0 0
        ([170, 187, 0, 0, 0, 0, 0, 0] ++ List.replicate 56 0)
        GsUsbFrame.default.timestamp_us)) ∧
    (GsUsb.read 16 true GsUsbFrame.default
      (some [1, 0, 0, 0, 35, 1, 0, 0, 3, 0, 0, 0, 170, 187, 0, 0, 0, 0, 0, 0,
             9, 1, 0, 0]) =
      some (true, GsUsbFrame.mk (leWord 1 0 0 0) (leWord 35 1 0 0) 3 0 0 0
        ([170, 187, 0, 0, 0, 0, 0, 0] ++ List.replicate 56 0) (leWord 9 1 0 0))) :=
  ⟨(C7_read_layout_recovery 0 true GsUsbFrame.default
      1 0 0 0 35 1 0 0 3 0 0 0 170 187 0 0 0 0 0 0 9 1 0 0
      (by decide)).2.2.2.1 (by decide),
   (C7_read_layout_recovery 16 true GsUsbFrame.default
      1 0 0 0 35 1 0 0 3 0 0 0 170 187 0 0 0 0 0 0 9 1 0 0
      (by decide)).2.2.2.2.1 (by decide)⟩

/-- C8 (counterexample). The claim says the GET_STATE transfer carries the
channel in `wIndex`.  The source call is
`ctrl_transfer(0xC1, _GS_USB_BREQ_GET_STATE, channel, 0, 12)`, whose pyusb
positional order is `(bmRequestType, bRequest, wValue, wIndex, length)`: for
channel 3 the issued transfer has `wValue = 3` and `wIndex = 0 ≠ 3`. -/
theorem C8_get_state_counterexample :
    (GsUsb.get_state 8192 3 (List.replicate 12 0)).1 =
      [(0xC1, GS_USB_BREQ_GET_STATE, 3, 0, ([] : List Nat))] ∧
    ((GsUsb.get_state 8192 3 (List.replicate 12 0)).1.map
       (fun t => t.2.2.2.1)) = [0] ∧
    (0 : Nat) ≠ 3 := by decide

/-- C8 (amended). Calling `get_state` on a device without the GET_STATE
feature bit raises without issuing any transport call; with the feature
present every call issues a fresh GET_STATE control transfer carrying the
channel argument in the `wValue` field (with `wIndex = 0`) and returns the
decoded state and error counters. -/
theorem C8_get_state_behaviour (feature channel : Nat) (response : List Nat) :
    (GsUsb.supports_get_state feature = false →
       GsUsb.get_state feature channel response = ([], none)) ∧
    (GsUsb.supports_get_state feature = true →
       GsUsb.get_state feature channel response =
         ([(0xC1, GS_USB_BREQ_GET_STATE, channel, 0, [])],
          DeviceState.unpack response)) ∧
    GsUsb.supports_get_state feature = feature.testBit 13 ∧
    (response.length = 12 →
       DeviceState.unpack response =
         some ⟨wordAt response 0, wordAt response 4, wordAt response 8⟩) := by
  refine ⟨?_, ?_, ?_, ?_⟩
  · intro h
    rw [GsUsb.get_state, h]
    rfl
  · intro h
    rw [GsUsb.get_state, h]
    rfl
  · have h13 := and_two_pow_ne_zero_eq_testBit feature 13
    norm_num at h13
    have hc : GS_CAN_FEATURE_GET_STATE = 8192 := by decide
    simp only [GsUsb.supports_get_state, hc, ne_eq, decide_not, h13, Bool.not_not]
  · intro h
    rw [DeviceState.unpack, if_pos h]

/-- C8 (witness). A feature word without the GET_STATE bit gives no transfer
and no result; a feature word with exactly that bit issues the fresh transfer
with the channel in `wValue`. -/
theorem C8_get_state_witness :
    GsUsb.get_state 0 3 [] = ([], none) ∧
    GsUsb.get_state 8192 3 (List.replicate 12 0) =
      ([(0xC1, GS_USB_BREQ_GET_STATE, 3, 0, [])],
       DeviceState.unpack (List.replicate 12 0)) :=
  ⟨(C8_get_state_behaviour 0 3 []).1 (by decide),
   (C8_get_state_behaviour 8192 3 (List.replicate 12 0)).2.1 (by decide)⟩

/-- C9. For every bitrate and clock, a device feature word without the FD bit
makes `set_data_bitrate` return `False` immediately, issuing no
DATA_BITTIMING transfer; the result does not depend on the clock or bitrate,
so the per-clock table is never consulted. -/
theorem C9_set_data_bitrate_requires_fd (feature fclk bitrate : Nat)
    (h : feature &&& GS_CAN_FEATURE_FD = 0) :
    GsUsb.set_data_bitrate feature fclk bitrate = (false, []) := by
  rw [GsUsb.set_data_bitrate, if_pos h]

/-- C9 (witness). Even for a table-supported combination (80 MHz, 2 Mbps) the
call fails fast without the FD feature. -/
theorem C9_set_data_bitrate_witness :
    GsUsb.set_data_bitrate 0 80000000 2000000 = (false, []) :=
  C9_set_data_bitrate_requires_fd 0 80000000 2000000 (by decide)

/-- C10. Every successful `unpack_into`, in all four layout combinations,
leaves the frame's `data` field a list of exactly 64 entries; classic layouts
copy the 8 payload bytes and pad with 56 zeros. -/
theorem C10_unpack_data_invariant (frame : GsUsbFrame) (data : List Nat) (hw fd : Bool)
    (g : GsUsbFrame) (h : GsUsbFrame.unpack_into frame data hw fd = some g) :
    g.data.length = 64 ∧ (fd = false → g.data.drop 8 = List.replicate 56 0) := by
  rw [GsUsbFrame.unpack_into] at h
  split at h
  case isFalse => exact absurd h (by simp)
  case isTrue hlen =>
    cases hw <;> cases fd <;>
      simp only [GsUsbFrame.sizeOfLayout, GS_USB_FRAME_SIZE, GS_USB_FRAME_SIZE_HW_TIMESTAMP,
        GS_USB_FRAME_SIZE_FD, GS_USB_FRAME_SIZE_FD_HW_TIMESTAMP, Bool.false_eq_true,
        ite_false, ite_true, Option.some.injEq] at hlen h <;>
      subst h
    · constructor
      · simp [List.length_append, List.length_take, List.length_drop, hlen]
      · intro _
        have h8 : ((data.drop 12).take 8).length = 8 := by
          simp [List.length_take, List.length_drop, hlen]
        simp [List.drop_left' h8]
    · constructor
      · simp [List.length_take, List.length_drop, hlen]
      · intro hcontra
        cases hcontra
    · constructor
      · simp [List.length_append, List.length_take, List.length_drop, hlen]
      · intro _
        have h8 : ((data.drop 12).take 8).length = 8 := by
          simp [List.length_take, List.length_drop, hlen]
        simp [List.drop_left' h8]
    · constructor
      · simp [List.length_take, List.length_drop, hlen]
      · intro hcontra
        cases hcontra

/-- C10 (witness). Decoding a 20-byte all-zero classic buffer yields a frame
whose data is 64 zero bytes. -/
theorem C10_unpack_data_witness :
    (GsUsbFrame.mk 0 0 0 0 0 0 (List.replicate 64 0) 0).data.length = 64 ∧
    (false = false →
      (GsUsbFrame.mk 0 0 0 0 0 0 (List.replicate 64 0) 0).data.drop 8 =
        List.replicate 56 0) :=
  C10_unpack_data_invariant GsUsbFrame.default (List.replicate 20 0) false false
    (GsUsbFrame.mk 0 0 0 0 0 0 (List.replicate 64 0) 0) (by decide)

end GsUsbSpec
